import Mathlib

/-!
Shallow embedding of the sales-reporting pipeline (main.py, Streamlit.py,
Trend_Analyses.py) and verification of its specification claims.

Modelling conventions:
- the sqlite database is a `DB` value: the schema catalogue (sqlite_master)
  plus one Lean list of rows per table, threaded explicitly through each
  operation (the Python code threads a shared `conn`);
- SQL `REAL` money amounts are modelled as exact integers (`Int`); every
  claim instance is integral and no claim depends on fractional values;
- the HTTP fetch (`requests.get` + `.json()`) is an external collaborator:
  its outcome is passed in, either as the decoded row list or as an
  `Except` carrying a transport/decode error;
- `datetime.now().isoformat()` is passed in as the `now : String` argument.
-/

structure Product where
  id : Int
  name : String
  price : Int
  category : String
deriving DecidableEq

structure Store where
  id : Int
  city : String
  region : String
  address : String
deriving DecidableEq

structure Sale where
  id : Int
  product_id : Int
  store_id : Int
  sale_date : String
  quantity : Int
  amount : Int
deriving DecidableEq

/-- One row of `analysis_results` as written by `run_sales_analysis`
(main.py lines 118-122); the `id` column is storage-assigned. -/

structure AnalysisResult where
  analysis_type : String
  result_value : Option Int
  result_details : String
  created_at : String
deriving DecidableEq

structure DB where
  schemas : List (String × List String)
  products : List Product
  stores : List Store
  sales : List Sale
  analysis_results : List AnalysisResult
deriving DecidableEq

def emptyDB : DB :=
  { schemas := [], products := [], stores := [], sales := [], analysis_results := [] }

/-! Schema Manager (main.py `setup_database`, lines 7-54). -/

def productsColumns : List String := ["id", "name", "price", "category"]

def storesColumns : List String := ["id", "city", "region", "address"]

def salesColumns : List String :=
  ["id", "product_id", "store_id", "sale_date", "quantity", "amount"]

def analysisResultsColumns : List String :=
  ["id", "analysis_type", "result_value", "result_details", "created_at"]

/-- SQL `CREATE TABLE IF NOT EXISTS nm (cols)` against the schema catalogue:
a no-op when a table of that name exists, otherwise the definition is added. -/

def createTableIfNotExists (ts : List (String × List String)) (nm : String)
    (cols : List String) : List (String × List String) :=
  if nm ∈ ts.map Prod.fst then ts else ts ++ [(nm, cols)]

/-- Schema catalogue after the four CREATE TABLE IF NOT EXISTS statements of
`setup_database`, in source order. -/

def setupSchemas (ts : List (String × List String)) : List (String × List String) :=
  createTableIfNotExists
    (createTableIfNotExists
      (createTableIfNotExists
        (createTableIfNotExists ts "products" productsColumns)
        "stores" storesColumns)
      "sales" salesColumns)
    "analysis_results" analysisResultsColumns

/-- main.py `setup_database`: the four CREATE TABLE IF NOT EXISTS statements,
in source order; table rows are untouched. -/

def setup_database (db : DB) : DB :=
  { db with schemas := setupSchemas db.schemas }

/-! Importer (main.py `import_products` lines 57-70, `import_sales` lines 72-88).
The HTTP fetch and JSON decode are external; their decoded result (or failure)
is an argument. -/

/-- One decimal digit character. -/

def digitChar10 : Nat → Char
  | 0 => '0'
  | 1 => '1'
  | 2 => '2'
  | 3 => '3'
  | 4 => '4'
  | 5 => '5'
  | 6 => '6'
  | 7 => '7'
  | 8 => '8'
  | _ => '9'

/-- Zero-padded four-digit field, as produced by strftime %Y. -/

def pad4 (n : Nat) : List Char :=
  [digitChar10 (n / 1000 % 10), digitChar10 (n / 100 % 10),
   digitChar10 (n / 10 % 10), digitChar10 (n % 10)]

/-- Zero-padded two-digit field, as produced by strftime %m and %d. -/

def pad2 (n : Nat) : List Char :=
  [digitChar10 (n / 10 % 10), digitChar10 (n % 10)]

/-- strftime with format %Y-%m-%d applied to a (year, month, day) date. -/

def formatYMD (t : Nat × Nat × Nat) : String :=
  String.mk (pad4 t.1 ++ '-' :: (pad2 t.2.1 ++ '-' :: pad2 t.2.2))

/-- Character-list shape of a YYYY-MM-DD string. -/

def isYMDChars : List Char → Bool
  | [y1, y2, y3, y4, h1, m1, m2, h2, d1, d2] =>
      y1.isDigit && y2.isDigit && y3.isDigit && y4.isDigit && h1 == '-'
        && m1.isDigit && m2.isDigit && h2 == '-' && d1.isDigit && d2.isDigit
  | _ => false

/-- String shape YYYY-MM-DD: ten characters, four digits, dash, two digits,
dash, two digits. -/

def isYMDShape (s : String) : Bool := isYMDChars s.data

/-- Splits a character list on a separator, like str.split. -/

def splitOnChar (sep : Char) : List Char → List (List Char)
  | [] => [[]]
  | c :: cs =>
      if c == sep then [] :: splitOnChar sep cs
      else
        match splitOnChar sep cs with
        | [] => [[c]]
        | g :: gs => (c :: g) :: gs

/-- Numeric value of a nonempty all-digit character list. -/

def parseNatDigits (cs : List Char) : Option Nat :=
  if cs.isEmpty then none
  else
    cs.foldl
      (fun acc c =>
        match acc with
        | none => none
        | some a => if c.isDigit then some (a * 10 + (c.toNat - 48)) else none)
      (some 0)

/-- Models pandas to_datetime on an ISO-8601 sale_date string: the date part
(before any time suffix introduced by a T or a space) must be
year-month-day with a valid month and day; out-of-range or malformed values
raise, which this model reports as `none`. The year bound abstracts the
datetime64 range check. -/

def parseISODate (s : String) : Option (Nat × Nat × Nat) :=
  match splitOnChar '-' (s.data.takeWhile (fun c => !(c == 'T') && !(c == ' '))) with
  | [ys, ms, ds] =>
      match parseNatDigits ys, parseNatDigits ms, parseNatDigits ds with
      | some y, some m, some d =>
          if y ≤ 9999 && 1 ≤ m && m ≤ 12 && 1 ≤ d && d ≤ 31 then some (y, m, d)
          else none
      | _, _, _ => none
  | _ => none

/-- main.py line 78: the sale_date column rewritten through
to_datetime followed by strftime %Y-%m-%d; other fields kept. -/

def normalizeSaleDate (s : Sale) : Option Sale :=
  (parseISODate s.sale_date).map (fun d => { s with sale_date := formatYMD d })

/-- Columnwise date conversion of main.py line 78: every fetched row has its
sale_date normalized; one unparseable value makes the whole call raise. -/

def normalizeSales : List Sale → Option (List Sale)
  | [] => some []
  | s :: ss =>
      match normalizeSaleDate s, normalizeSales ss with
      | some s', some ss' => some (s' :: ss')
      | _, _ => none

/-- main.py `import_products` lines 62-70, after a successful fetch: diff the
fetched rows against the ids already in the products table, append the new
rows if any, otherwise write nothing. -/

def import_products (db : DB) (fetched : List Product) : DB :=
  let existing := db.products.map Product.id
  let new_records := fetched.filter (fun r => !(existing.contains r.id))
  if new_records.isEmpty then db
  else { db with products := db.products ++ new_records }

/-- main.py `import_sales` lines 77-88, after a successful fetch: normalize
sale_date over the whole fetched frame (raising on an unparseable value),
then diff against ids already in the sales table and append the new rows if
any, otherwise write nothing. -/

def import_sales (db : DB) (fetched : List Sale) : Except String DB :=
  match normalizeSales fetched with
  | none => Except.error "to_datetime failed on sale_date"
  | some df =>
      let existing := db.sales.map Sale.id
      let new_records := df.filter (fun r => !(existing.contains r.id))
      Except.ok (if new_records.isEmpty then db else { db with sales := db.sales ++ new_records })

/-- main.py `import_products` lines 57-60 with the fetch outcome explicit: a
transport or JSON-decode failure is not caught, so it propagates and
the rest of the import body never runs. -/

def import_products_fetched (db : DB) (fetch : Except String (List Product)) :
    Except String DB :=
  match fetch with
  | Except.error e => Except.error e
  | Except.ok rows => Except.ok (import_products db rows)

/-- main.py `import_sales` lines 72-75 with the fetch outcome explicit. -/

def import_sales_fetched (db : DB) (fetch : Except String (List Sale)) :
    Except String DB :=
  match fetch with
  | Except.error e => Except.error e
  | Except.ok rows => import_sales db rows

/-! Aggregator (main.py `run_sales_analysis`, lines 91-130). -/

/-- SQL SELECT SUM(amount) FROM sales: NULL (here `none`) over an empty
table, otherwise the sum. -/

def sqlSumAmount (rows : List Sale) : Option Int :=
  match rows with
  | [] => none
  | _ => some ((rows.map Sale.amount).sum)

/-- Sum of the second components of grouped (key, value) pairs. -/

def sumSnd (l : List (String × Int)) : Int := (l.map Prod.snd).sum

/-- SQL SUM(v) restricted to the rows of one group key. -/

def sumForKey (l : List (String × Int)) (k : String) : Int :=
  sumSnd (l.filter (fun p => p.1 == k))

/-- Ordering used by ORDER BY total_sales DESC: earlier rows have the larger
sum. -/

def revDesc (a b : String × Int) : Prop := b.2 ≤ a.2

instance : DecidableRel revDesc := fun a b => Int.decLe b.2 a.2

instance : IsTotal (String × Int) revDesc := ⟨fun a b => Int.le_total b.2 a.2⟩

instance : IsTrans (String × Int) revDesc := ⟨fun _ _ _ h1 h2 => Int.le_trans h2 h1⟩

/-- SQL GROUP BY key ORDER BY SUM(value) DESC over (key, value) pairs: one
output row per distinct key carrying that group's sum, sorted by descending
sum. -/

def groupSumDesc (pairs : List (String × Int)) : List (String × Int) :=
  List.insertionSort revDesc
    (((pairs.map Prod.fst).dedup).map (fun k => (k, sumForKey pairs k)))

/-- FROM sales s JOIN products p ON s.product_id = p.id, projected to
(p.name, s.amount) (main.py lines 99-105 before grouping). -/

def productAmountPairs (db : DB) : List (String × Int) :=
  db.sales.flatMap (fun s =>
    (db.products.filter (fun p => p.id == s.product_id)).map (fun p => (p.name, s.amount)))

/-- FROM sales s JOIN stores st ON s.store_id = st.id, projected to
(st.region, s.amount) (main.py lines 108-114 before grouping). -/

def storeAmountPairs (db : DB) : List (String × Int) :=
  db.sales.flatMap (fun s =>
    (db.stores.filter (fun st => st.id == s.store_id)).map (fun st => (st.region, s.amount)))

/-- main.py lines 99-105: revenue per product name, descending. -/

def product_sales (db : DB) : List (String × Int) := groupSumDesc (productAmountPairs db)

/-- main.py lines 108-114: revenue per store region, descending. -/

def region_sales (db : DB) : List (String × Int) := groupSumDesc (storeAmountPairs db)

/-- Sum of amount over every sales row. -/

def totalAmount (db : DB) : Int := (db.sales.map Sale.amount).sum

/-- Sum of amount over the sales rows whose product_id matches no products
row (these survive in SUM(amount) but drop out of the inner join). -/

def danglingProductAmount (db : DB) : Int :=
  ((db.sales.filter (fun s => !(db.products.any (fun p => p.id == s.product_id)))).map
    Sale.amount).sum

/-- Sum of amount over the sales rows whose store_id matches no stores row. -/

def danglingStoreAmount (db : DB) : Int :=
  ((db.sales.filter (fun s => !(db.stores.any (fun st => st.id == s.store_id)))).map
    Sale.amount).sum

/-- Return value of `run_sales_analysis` (main.py lines 126-130). -/

structure AnalysisOutput where
  total_revenue : Option Int
  product_sales : List (String × Int)
  region_sales : List (String × Int)
deriving DecidableEq

/-- main.py `run_sales_analysis`: the three read-only aggregates, then the
unconditional INSERT of one analysis_results row tagged total_revenue with
the fixed label and the current timestamp (lines 116-124). -/

def run_sales_analysis (db : DB) (now : String) : DB × AnalysisOutput :=
  let total := sqlSumAmount db.sales
  let ps := product_sales db
  let rs := region_sales db
  let row : AnalysisResult :=
    { analysis_type := "total_revenue", result_value := total,
      result_details := "Overall revenue", created_at := now }
  ({ db with analysis_results := db.analysis_results ++ [row] },
   { total_revenue := total, product_sales := ps, region_sales := rs })

/-- n successive `run_sales_analysis` calls, one per supplied timestamp. -/

def runAnalysisCalls (db : DB) : List String → DB
  | [] => db
  | t :: ts => runAnalysisCalls (run_sales_analysis db t).1 ts

/-- Full process entry point (main.py lines 132-145): ensure schema, import
products then sales (each fetch outcome supplied), run the analysis. An
uncaught error anywhere aborts the run with that error. -/

def pipeline_run (db : DB) (fetchP : Except String (List Product))
    (fetchS : Except String (List Sale)) (now : String) :
    Except String (DB × AnalysisOutput) := do
  let db0 := setup_database db
  let db1 ← import_products_fetched db0 fetchP
  let db2 ← import_sales_fetched db1 fetchS
  Except.ok (run_sales_analysis db2 now)

/-! Presenter (Streamlit.py). -/

/-- Python float formatting applied to the headline metric value read back
from SQL (Streamlit.py line 22): formatting the NULL result, which pandas
hands over as None, raises TypeError; a number renders. -/

def formatRevenueMetric (x : Option Int) : Except String String :=
  match x with
  | none => Except.error "TypeError: unsupported format string passed to NoneType"
  | some v => Except.ok (String.append "EUR " (toString v))

/-- Streamlit.py line 11: the headline total-revenue query. -/

def dashboard_total_revenue (db : DB) : Option Int := sqlSumAmount db.sales

/-- Streamlit.py lines 11 and 22: query then format the headline metric. -/

def dashboard_metric (db : DB) : Except String String :=
  formatRevenueMetric (sqlSumAmount db.sales)

/-! Forecaster (Trend_Analyses.py). -/

/-- Lexicographic comparison of character lists, used for ORDER BY
sale_date on the date strings. -/

def charListLe : List Char → List Char → Bool
  | [], _ => true
  | _ :: _, [] => false
  | c :: cs, d :: ds =>
      if c.val < d.val then true
      else if d.val < c.val then false
      else charListLe cs ds

/-- Ordering used by ORDER BY sale_date (ascending date strings). -/

def dateAsc (a b : String × Int) : Prop := charListLe a.1.data b.1.data = true

instance : DecidableRel dateAsc :=
  fun a b => inferInstanceAs (Decidable (charListLe a.1.data b.1.data = true))

/-- Trend_Analyses.py lines 6-9: SELECT sale_date, SUM(amount) FROM sales
GROUP BY sale_date ORDER BY sale_date. -/

def dailyRevenue (db : DB) : List (String × Int) :=
  let pairs := db.sales.map (fun s => (s.sale_date, s.amount))
  List.insertionSort dateAsc
    (((pairs.map Prod.fst).dedup).map (fun k => (k, sumForKey pairs k)))

/-- Modelled from the spec: the minimum series length the external
statsmodels ARIMA(5,1,0) fit accepts, one observation beyond the
autoregressive lag 5 plus the single differencing step. Fitting a shorter
series raises, which must surface as a reported error. -/

def arimaMinObservations : Nat := 7

/-- Modelled from the spec: the external ARIMA(5,1,0) fit plus
forecast(steps) black box (Trend_Analyses.py lines 16-18). Its contract:
with enough observations it returns exactly `steps` point forecasts (their
numeric values are the model's own and unspecified here); with fewer it
reports a fit error. -/

def arimaForecast (series : List Int) (steps : Nat) : Except String (List Int) :=
  if series.length < arimaMinObservations then
    Except.error "insufficient observations for ARIMA(5,1,0) fit"
  else Except.ok (List.replicate steps 0)

/-- Trend_Analyses.py: daily revenue series, ARIMA(5,1,0) fit, 7-step
forecast. -/

def run_trend_forecast (db : DB) : Except String (List Int) :=
  arimaForecast ((dailyRevenue db).map Prod.snd) 7

/-! Concrete instances used by the claims. -/

/-- Product row with a given id (names and categories immaterial here,
except where stated). -/

def exProduct (i : Int) : Product := { id := i, name := "P", price := 1, category := "C" }

/-- Target table already containing ids 1, 2, 3. -/

def exDB1 : DB := { emptyDB with products := [exProduct 1, exProduct 2, exProduct 3] }

/-- Fetch returning ids 2, 3, 4, 5. -/

def fetch1 : List Product := [exProduct 2, exProduct 3, exProduct 4, exProduct 5]

/-- Sales row with an ISO timestamp sale_date, as fetched. -/

def exSale1 : Sale :=
  { id := 1, product_id := 1, store_id := 1, sale_date := "2024-01-15T10:30:00",
    quantity := 1, amount := 10 }

/-- The same row after date normalization. -/

def exSale1n : Sale := { exSale1 with sale_date := "2024-01-15" }

/-- A one-row sales fetch. -/

def fetchS1 : List Sale := [exSale1]

/-- Sales table that already contains the normalized row with id 1. -/

def exDBs : DB := { emptyDB with sales := [exSale1n] }

/-- The concrete store of claim C4: products A and B, stores North and
South, three sales (amount 10 of A in North, 20 of B in North, 5 of A in
South). -/

def exDB4 : DB :=
  { emptyDB with
    products := [{ id := 1, name := "A", price := 1, category := "C" },
                 { id := 2, name := "B", price := 1, category := "C" }],
    stores := [{ id := 1, city := "N", region := "North", address := "x" },
               { id := 2, city := "S", region := "South", address := "y" }],
    sales := [{ id := 1, product_id := 1, store_id := 1, sale_date := "2024-01-01", quantity := 1, amount := 10 },
              { id := 2, product_id := 2, store_id := 1, sale_date := "2024-01-02", quantity := 1, amount := 20 },
              { id := 3, product_id := 1, store_id := 2, sale_date := "2024-01-03", quantity := 1, amount := 5 }] }

/-- A store with one dangling sale (product_id and store_id match nothing)
of amount 0: it is counted in total_revenue and absent from the joins. -/

def exDB10 : DB :=
  { emptyDB with
    sales := [{ id := 1, product_id := 99, store_id := 99, sale_date := "2024-01-01", quantity := 1, amount := 0 }] }

/-- Same store but the dangling sale has positive amount 5, next to one
matched sale of amount 10. -/

def exDB10b : DB :=
  { emptyDB with
    products := [{ id := 1, name := "A", price := 1, category := "C" }],
    stores := [{ id := 1, city := "N", region := "North", address := "x" }],
    sales := [{ id := 1, product_id := 1, store_id := 1, sale_date := "2024-01-01", quantity := 1, amount := 10 },
              { id := 2, product_id := 99, store_id := 99, sale_date := "2024-01-02", quantity := 1, amount := 5 }] }

/-- Thirty sales on thirty distinct dates, for the forecaster witness. -/

def db30 : DB :=
  { emptyDB with
    sales := (List.range 30).map (fun i =>
      { id := Int.ofNat i, product_id := 1, store_id := 1,
        sale_date := String.append "D" (Nat.repr i), quantity := 1, amount := 1 }) }

lemma createTableIfNotExists_of_mem {ts : List (String × List String)} {nm : String}
    (cols : List String) (h : nm ∈ ts.map Prod.fst) :
    createTableIfNotExists ts nm cols = ts := by
  unfold createTableIfNotExists
  exact if_pos h

lemma mem_fst_createTableIfNotExists_self (ts : List (String × List String))
    (nm : String) (cols : List String) :
    nm ∈ (createTableIfNotExists ts nm cols).map Prod.fst := by
  unfold createTableIfNotExists
  split
  · assumption
  · simp

lemma mem_fst_createTableIfNotExists_mono {ts : List (String × List String)} {x : String}
    (nm : String) (cols : List String) (h : x ∈ ts.map Prod.fst) :
    x ∈ (createTableIfNotExists ts nm cols).map Prod.fst := by
  unfold createTableIfNotExists
  split
  · exact h
  · simp [h]

lemma setupSchemas_mem_products (ts : List (String × List String)) :
    "products" ∈ (setupSchemas ts).map Prod.fst := by
  unfold setupSchemas
  exact mem_fst_createTableIfNotExists_mono _ _
    (mem_fst_createTableIfNotExists_mono _ _
      (mem_fst_createTableIfNotExists_mono _ _
        (mem_fst_createTableIfNotExists_self _ _ _)))

lemma setupSchemas_mem_stores (ts : List (String × List String)) :
    "stores" ∈ (setupSchemas ts).map Prod.fst := by
  unfold setupSchemas
  exact mem_fst_createTableIfNotExists_mono _ _
    (mem_fst_createTableIfNotExists_mono _ _
      (mem_fst_createTableIfNotExists_self _ _ _))

lemma setupSchemas_mem_sales (ts : List (String × List String)) :
    "sales" ∈ (setupSchemas ts).map Prod.fst := by
  unfold setupSchemas
  exact mem_fst_createTableIfNotExists_mono _ _
    (mem_fst_createTableIfNotExists_self _ _ _)

lemma setupSchemas_mem_analysis (ts : List (String × List String)) :
    "analysis_results" ∈ (setupSchemas ts).map Prod.fst := by
  unfold setupSchemas
  exact mem_fst_createTableIfNotExists_self _ _ _

lemma setupSchemas_idem (ts : List (String × List String)) :
    setupSchemas (setupSchemas ts) = setupSchemas ts := by
  nth_rewrite 1 [setupSchemas]
  rw [createTableIfNotExists_of_mem _ (setupSchemas_mem_products ts),
    createTableIfNotExists_of_mem _ (setupSchemas_mem_stores ts),
    createTableIfNotExists_of_mem _ (setupSchemas_mem_sales ts),
    createTableIfNotExists_of_mem _ (setupSchemas_mem_analysis ts)]

/-- Claim C5 (Schema Manager idempotence): a second run of `setup_database`
against the same storage changes nothing (same four tables, no duplicate
definitions), no table rows are lost or changed by either run, and the four
table names are present after a run. -/
theorem c5_schema_manager_idempotent (db : DB) :
    setup_database (setup_database db) = setup_database db
    ∧ (setup_database db).products = db.products
    ∧ (setup_database db).stores = db.stores
    ∧ (setup_database db).sales = db.sales
    ∧ (setup_database db).analysis_results = db.analysis_results
    ∧ "products" ∈ (setup_database db).schemas.map Prod.fst
    ∧ "stores" ∈ (setup_database db).schemas.map Prod.fst
    ∧ "sales" ∈ (setup_database db).schemas.map Prod.fst
    ∧ "analysis_results" ∈ (setup_database db).schemas.map Prod.fst := by
  refine ⟨?_, rfl, rfl, rfl, rfl, ?_, ?_, ?_, ?_⟩
  · show ({ setup_database db with schemas := setupSchemas (setupSchemas db.schemas) } : DB)
      = setup_database db
    rw [setupSchemas_idem]
    rfl
  · simp only [setup_database]
    exact setupSchemas_mem_products _
  · simp only [setup_database]
    exact setupSchemas_mem_stores _
  · simp only [setup_database]
    exact setupSchemas_mem_sales _
  · simp only [setup_database]
    exact setupSchemas_mem_analysis _

lemma import_products_eq (db : DB) (fetched : List Product) :
    import_products db fetched =
      { db with products := (db.products ++
          fetched.filter (fun r => !((db.products.map Product.id).contains r.id))) } := by
  simp only [import_products]
  by_cases h : (fetched.filter (fun r => !((db.products.map Product.id).contains r.id))).isEmpty
  · rw [if_pos h]
    rw [List.isEmpty_iff] at h
    rw [h, List.append_nil]
  · rw [if_neg h]

lemma import_sales_eq (db : DB) (fetched df : List Sale)
    (hdf : normalizeSales fetched = some df) :
    import_sales db fetched =
      Except.ok { db with sales := (db.sales ++
          df.filter (fun r => !((db.sales.map Sale.id).contains r.id))) } := by
  simp only [import_sales, hdf]
  by_cases h : (df.filter (fun r => !((db.sales.map Sale.id).contains r.id))).isEmpty
  · rw [if_pos h]
    rw [List.isEmpty_iff] at h
    rw [h, List.append_nil]
  · rw [if_neg h]

/-! Importer claims. -/
lemma isDigit_digitChar10 (n : Nat) : (digitChar10 n).isDigit = true :=
  match n with
  | 0 => rfl
  | 1 => rfl
  | 2 => rfl
  | 3 => rfl
  | 4 => rfl
  | 5 => rfl
  | 6 => rfl
  | 7 => rfl
  | 8 => rfl
  | _ + 9 => rfl

lemma isYMDShape_formatYMD (t : Nat × Nat × Nat) : isYMDShape (formatYMD t) = true := by
  obtain ⟨y, m, d⟩ := t
  simp [isYMDShape, formatYMD, pad4, pad2, isYMDChars, isDigit_digitChar10]

lemma normalizeSaleDate_fields {s s' : Sale} (h : normalizeSaleDate s = some s') :
    isYMDShape s'.sale_date = true ∧ s'.id = s.id ∧ s'.product_id = s.product_id
      ∧ s'.store_id = s.store_id ∧ s'.quantity = s.quantity ∧ s'.amount = s.amount := by
  unfold normalizeSaleDate at h
  cases hp : parseISODate s.sale_date with
  | none => rw [hp] at h; simp at h
  | some d =>
      rw [hp, Option.map_some'] at h
      rw [Option.some.injEq] at h
      subst h
      exact ⟨isYMDShape_formatYMD d, rfl, rfl, rfl, rfl, rfl⟩

lemma normalizeSales_mem {fetched df : List Sale} (h : normalizeSales fetched = some df) :
    ∀ r ∈ df, ∃ s ∈ fetched, normalizeSaleDate s = some r := by
  induction fetched generalizing df with
  | nil =>
      simp only [normalizeSales, Option.some.injEq] at h
      subst h
      intro r hr
      simp at hr
  | cons s ss ih =>
      simp only [normalizeSales] at h
      cases hs : normalizeSaleDate s with
      | none => rw [hs] at h; simp at h
      | some s' =>
          rw [hs] at h
          cases hss : normalizeSales ss with
          | none => rw [hss] at h; simp at h
          | some ss' =>
              rw [hss, Option.some.injEq] at h
              subst h
              intro r hr
              rcases List.mem_cons.mp hr with h1 | h1
              · subst h1
                exact ⟨s, List.mem_cons_self s ss, hs⟩
              · rcases ih hss r h1 with ⟨x, hx, hx2⟩
                exact ⟨x, List.mem_cons_of_mem s hx, hx2⟩

/-- Claim C1 (import deduplication): each importer appends exactly the
fetched rows whose id is not already present in the target table; on the
concrete table with ids 1,2,3 and a fetch with ids 2,3,4,5 exactly the rows
with ids 4 and 5 are appended, and a second identical call appends
nothing. -/
theorem c1_import_dedup :
    (∀ (db : DB) (fetched : List Product),
        (import_products db fetched).products = db.products ++
          fetched.filter (fun r => !((db.products.map Product.id).contains r.id)))
    ∧ (∀ (db : DB) (fetched df : List Sale), normalizeSales fetched = some df →
        ∃ db', import_sales db fetched = Except.ok db'
          ∧ db'.sales = db.sales ++
              df.filter (fun r => !((db.sales.map Sale.id).contains r.id)))
    ∧ (import_products exDB1 fetch1).products = exDB1.products ++ [exProduct 4, exProduct 5]
    ∧ import_products (import_products exDB1 fetch1) fetch1 = import_products exDB1 fetch1 := by
  refine ⟨?_, ?_, by decide, by decide⟩
  · intro db fetched
    rw [import_products_eq]
  · intro db fetched df h
    exact ⟨_, import_sales_eq db fetched df h, rfl⟩

/-- Witness for C1: the sales-side law applied to a concrete one-row
fetch. -/
theorem c1_import_dedup_witness :
    normalizeSales fetchS1 = some [exSale1n]
    ∧ ∃ db', import_sales emptyDB fetchS1 = Except.ok db'
        ∧ db'.sales = emptyDB.sales ++
            [exSale1n].filter (fun r => !((emptyDB.sales.map Sale.id).contains r.id)) :=
  ⟨by decide, c1_import_dedup.2.1 emptyDB fetchS1 [exSale1n] (by decide)⟩

/-- Claim C6 (sale-date normalization): strftime %Y-%m-%d output always has
the YYYY-MM-DD shape, normalization rewrites only the sale_date field, and
for a fully parseable fetch the import diffs and writes the normalized
frame: every row of the diffed-and-written frame already carries a
YYYY-MM-DD date. -/
theorem c6_sale_date_normalization :
    (∀ t : Nat × Nat × Nat, isYMDShape (formatYMD t) = true)
    ∧ (∀ s s' : Sale, normalizeSaleDate s = some s' →
        isYMDShape s'.sale_date = true ∧ s'.id = s.id ∧ s'.product_id = s.product_id
          ∧ s'.store_id = s.store_id ∧ s'.quantity = s.quantity ∧ s'.amount = s.amount)
    ∧ (∀ (db : DB) (fetched df : List Sale), normalizeSales fetched = some df →
        ∃ db', import_sales db fetched = Except.ok db'
          ∧ db'.sales = db.sales ++
              df.filter (fun r => !((db.sales.map Sale.id).contains r.id))
          ∧ ∀ r ∈ df, isYMDShape r.sale_date = true) := by
  refine ⟨isYMDShape_formatYMD, ?_, ?_⟩
  · intro s s' h
    exact normalizeSaleDate_fields h
  · intro db fetched df h
    refine ⟨_, import_sales_eq db fetched df h, rfl, ?_⟩
    intro r hr
    rcases normalizeSales_mem h r hr with ⟨x, _, hx⟩
    exact (normalizeSaleDate_fields hx).1

/-- Witness for C6: the normalization law applied to the concrete row with
an ISO timestamp date. -/
theorem c6_sale_date_normalization_witness :
    (normalizeSaleDate exSale1 = some exSale1n
      ∧ isYMDShape exSale1n.sale_date = true ∧ exSale1n.id = exSale1.id
      ∧ exSale1n.product_id = exSale1.product_id ∧ exSale1n.store_id = exSale1.store_id
      ∧ exSale1n.quantity = exSale1.quantity ∧ exSale1n.amount = exSale1.amount)
    ∧ (normalizeSales fetchS1 = some [exSale1n]
      ∧ ∃ db', import_sales emptyDB fetchS1 = Except.ok db'
          ∧ db'.sales = emptyDB.sales ++
              [exSale1n].filter (fun r => !((emptyDB.sales.map Sale.id).contains r.id))
          ∧ ∀ r ∈ [exSale1n], isYMDShape r.sale_date = true) :=
  ⟨⟨by decide, c6_sale_date_normalization.2.1 exSale1 exSale1n (by decide)⟩,
   ⟨by decide, c6_sale_date_normalization.2.2 emptyDB fetchS1 [exSale1n] (by decide)⟩⟩

/-- Claim C7 (importer frame property): an empty computed new-record set
means no write at all, and in every case the importer only appends to its
target table and leaves every other table untouched. -/
theorem c7_importer_frame :
    (∀ (db : DB) (fetched : List Product),
        fetched.filter (fun r => !((db.products.map Product.id).contains r.id)) = [] →
          import_products db fetched = db)
    ∧ (∀ (db : DB) (fetched : List Product),
        (∃ tail, (import_products db fetched).products = db.products ++ tail)
          ∧ (import_products db fetched).stores = db.stores
          ∧ (import_products db fetched).sales = db.sales
          ∧ (import_products db fetched).analysis_results = db.analysis_results
          ∧ (import_products db fetched).schemas = db.schemas)
    ∧ (∀ (db : DB) (fetched df : List Sale), normalizeSales fetched = some df →
        (df.filter (fun r => !((db.sales.map Sale.id).contains r.id)) = [] →
            import_sales db fetched = Except.ok db)
          ∧ ∃ db', import_sales db fetched = Except.ok db'
              ∧ (∃ tail, db'.sales = db.sales ++ tail)
              ∧ db'.products = db.products ∧ db'.stores = db.stores
              ∧ db'.analysis_results = db.analysis_results ∧ db'.schemas = db.schemas) := by
  refine ⟨?_, ?_, ?_⟩
  · intro db fetched hf
    rw [import_products_eq db fetched, hf, List.append_nil]
  · intro db fetched
    rw [import_products_eq db fetched]
    exact ⟨⟨_, rfl⟩, rfl, rfl, rfl, rfl⟩
  · intro db fetched df h
    constructor
    · intro hf
      rw [import_sales_eq db fetched df h, hf, List.append_nil]
    · exact ⟨_, import_sales_eq db fetched df h, ⟨_, rfl⟩, rfl, rfl, rfl, rfl⟩

/-- Witness for C7: a fetch whose ids are all present appends nothing, for
both importers. -/
theorem c7_importer_frame_witness :
    ([exProduct 2].filter (fun r => !((exDB1.products.map Product.id).contains r.id)) = []
      ∧ import_products exDB1 [exProduct 2] = exDB1)
    ∧ (normalizeSales fetchS1 = some [exSale1n]
      ∧ [exSale1n].filter (fun r => !((exDBs.sales.map Sale.id).contains r.id)) = []
      ∧ import_sales exDBs fetchS1 = Except.ok exDBs) :=
  ⟨⟨by decide, c7_importer_frame.1 exDB1 [exProduct 2] (by decide)⟩,
   ⟨by decide, by decide,
    (c7_importer_frame.2.2 exDBs fetchS1 [exSale1n] (by decide)).1 (by decide)⟩⟩

/-- Claim C9 (import error propagation): a failed fetch makes the import
call itself fail with that error, nothing is caught or retried, no database
state is produced by the call (so no write occurs), and the error
propagates through the process entry point, for either import step. -/
theorem c9_import_error_propagation :
    (∀ (db : DB) (e : String), import_products_fetched db (Except.error e) = Except.error e)
    ∧ (∀ (db : DB) (e : String), import_sales_fetched db (Except.error e) = Except.error e)
    ∧ (∀ (db : DB) (e : String) (fetchS : Except String (List Sale)) (now : String),
        pipeline_run db (Except.error e) fetchS now = Except.error e)
    ∧ (∀ (db : DB) (e : String) (rows : List Product) (now : String),
        pipeline_run db (Except.ok rows) (Except.error e) now = Except.error e) :=
  ⟨fun _ _ => rfl, fun _ _ => rfl, fun _ _ _ _ => rfl, fun _ _ _ _ => rfl⟩

/-! Aggregator claims: GROUP BY correctness machinery. -/
lemma sum_map_filter_add {α : Type} (l : List α) (p : α → Bool) (f : α → Int) :
    ((l.filter p).map f).sum + ((l.filter (fun x => !(p x))).map f).sum = (l.map f).sum := by
  induction l with
  | nil => rfl
  | cons x xs ih => cases hx : p x <;> simp [List.filter_cons, hx] <;> omega

lemma filter_key_through (l : List (String × Int)) {k k' : String} (h : k' ≠ k) :
    (l.filter (fun p => !(p.1 == k))).filter (fun p => p.1 == k')
      = l.filter (fun p => p.1 == k') := by
  induction l with
  | nil => rfl
  | cons x xs ih =>
      cases hx : (x.1 == k)
      · cases hx' : (x.1 == k') <;> simp [List.filter_cons, hx, hx', ih]
      · have hxk : x.1 = k := by simpa using hx
        have hx' : (x.1 == k') = false := by
          rw [hxk]
          exact beq_eq_false_iff_ne.mpr (Ne.symm h)
        simp [List.filter_cons, hx, hx', ih]

lemma sum_sumForKey_of_nodup :
    ∀ (ks : List String) (l : List (String × Int)), ks.Nodup →
      (∀ p ∈ l, p.1 ∈ ks) → (ks.map (fun k => sumForKey l k)).sum = sumSnd l := by
  intro ks
  induction ks with
  | nil =>
      intro l _ hcov
      cases l with
      | nil => rfl
      | cons p ps => exact absurd (hcov p (List.mem_cons_self p ps)) (List.not_mem_nil p.1)
  | cons k ks ih =>
      intro l hnd hcov
      rcases List.nodup_cons.mp hnd with ⟨hk, hnd'⟩
      have hcongr : ∀ k' ∈ ks,
          sumForKey l k' = sumForKey (l.filter (fun p => !(p.1 == k))) k' := by
        intro k' hk'
        have hne : k' ≠ k := fun he => hk (he ▸ hk')
        unfold sumForKey
        rw [filter_key_through l hne]
      have hcov' : ∀ p ∈ l.filter (fun p => !(p.1 == k)), p.1 ∈ ks := by
        intro p hp
        rcases List.mem_filter.mp hp with ⟨hpl, hpk⟩
        rcases List.mem_cons.mp (hcov p hpl) with h1 | h1
        · rw [h1] at hpk
          simp at hpk
        · exact h1
      rw [List.map_cons, List.sum_cons, List.map_congr_left hcongr,
        ih (l.filter (fun p => !(p.1 == k))) hnd' hcov']
      show sumForKey l k + sumSnd (l.filter (fun p => !(p.1 == k))) = sumSnd l
      unfold sumForKey sumSnd
      exact sum_map_filter_add l (fun p => p.1 == k) Prod.snd

lemma mem_groupSumDesc {l : List (String × Int)} {kv : String × Int} :
    kv ∈ groupSumDesc l ↔ kv.1 ∈ (l.map Prod.fst).dedup ∧ kv.2 = sumForKey l kv.1 := by
  unfold groupSumDesc
  rw [List.mem_insertionSort]
  constructor
  · intro h
    rcases List.mem_map.mp h with ⟨k, hk, he⟩
    rw [← he]
    exact ⟨hk, rfl⟩
  · rintro ⟨h1, h2⟩
    obtain ⟨a, b⟩ := kv
    dsimp only at h1 h2
    subst h2
    exact List.mem_map.mpr ⟨a, h1, rfl⟩

lemma pairwise_groupSumDesc (l : List (String × Int)) :
    (groupSumDesc l).Pairwise (fun a b => b.2 ≤ a.2) :=
  List.sorted_insertionSort revDesc _

lemma sumSnd_groupSumDesc (l : List (String × Int)) : sumSnd (groupSumDesc l) = sumSnd l := by
  have hperm := List.perm_insertionSort revDesc
    (((l.map Prod.fst).dedup).map (fun k => (k, sumForKey l k)))
  have h1 : sumSnd (groupSumDesc l)
      = sumSnd (((l.map Prod.fst).dedup).map (fun k => (k, sumForKey l k))) := by
    unfold sumSnd groupSumDesc
    exact (hperm.map Prod.snd).sum_eq
  rw [h1]
  unfold sumSnd
  rw [List.map_map]
  have h2 : (Prod.snd ∘ fun k => (k, sumForKey l k)) = fun k => sumForKey l k := rfl
  rw [h2]
  exact sum_sumForKey_of_nodup _ l (List.nodup_dedup _)
    (fun p hp => List.mem_dedup.mpr (List.mem_map_of_mem Prod.fst hp))

lemma sum_map_ite {α : Type} (l : List α) (p : α → Bool) (f : α → Int) :
    (l.map (fun x => if p x then f x else 0)).sum = ((l.filter p).map f).sum := by
  induction l with
  | nil => rfl
  | cons x xs ih => cases hx : p x <;> simp [List.filter_cons, hx, ih]

lemma sumSnd_flatMap (l : List Sale) (f : Sale → List (String × Int)) :
    sumSnd (l.flatMap f) = (l.map (fun s => sumSnd (f s))).sum := by
  induction l with
  | nil => rfl
  | cons s ss ih =>
      simp only [List.flatMap_cons, List.map_cons, List.sum_cons, ← ih]
      unfold sumSnd
      rw [List.map_append, List.sum_append]

lemma sumSnd_filterId_map {β : Type} (iid : β → Int) (key : β → String) (v a : Int) :
    ∀ items : List β, (items.map iid).Nodup →
      sumSnd ((items.filter (fun b => iid b == v)).map (fun b => (key b, a)))
        = if items.any (fun b => iid b == v) then a else 0 := by
  intro items
  induction items with
  | nil => intro _; rfl
  | cons b bs ih =>
      intro hnd
      rcases List.nodup_cons.mp hnd with ⟨hb, hnd'⟩
      cases hbv : (iid b == v)
      · simp [List.filter_cons, List.any_cons, hbv, ih hnd']
      · have hbveq : iid b = v := by simpa using hbv
        have hfil : bs.filter (fun b' => iid b' == v) = [] := by
          rw [List.filter_eq_nil_iff]
          intro b' hb' hcon
          apply hb
          have h2 : iid b' = iid b := by
            have h3 : iid b' = v := by simpa using hcon
            rw [h3, hbveq]
          exact h2 ▸ List.mem_map_of_mem iid hb'
        have hany : bs.any (fun b' => iid b' == v) = false := by
          cases hh : bs.any (fun b' => iid b' == v)
          · rfl
          · exfalso
            rcases List.any_eq_true.mp hh with ⟨b', hb', hcon⟩
            have := List.filter_eq_nil_iff.mp hfil b' hb'
            exact this hcon
        simp [List.filter_cons, List.any_cons, hbv, hfil, hany, sumSnd]

lemma join_sum_accounting {β : Type} (sales : List Sale) (items : List β)
    (iid : β → Int) (key : β → String) (sid : Sale → Int)
    (hnd : (items.map iid).Nodup) :
    sumSnd (sales.flatMap (fun s =>
        (items.filter (fun b => iid b == sid s)).map (fun b => (key b, s.amount))))
      = ((sales.filter (fun s => items.any (fun b => iid b == sid s))).map
          Sale.amount).sum := by
  rw [sumSnd_flatMap]
  have h1 : (fun s => sumSnd ((items.filter (fun b => iid b == sid s)).map
        (fun b => (key b, s.amount))))
      = (fun s => if items.any (fun b => iid b == sid s) then s.amount else 0) := by
    funext s
    exact sumSnd_filterId_map iid key (sid s) s.amount items hnd
  rw [h1]
  exact sum_map_ite sales _ Sale.amount

lemma product_sales_sum (db : DB) (hnd : (db.products.map Product.id).Nodup) :
    sumSnd (product_sales db) + danglingProductAmount db = totalAmount db := by
  unfold product_sales
  rw [sumSnd_groupSumDesc]
  unfold productAmountPairs
  rw [join_sum_accounting db.sales db.products Product.id Product.name Sale.product_id hnd]
  unfold danglingProductAmount totalAmount
  exact sum_map_filter_add db.sales _ Sale.amount

lemma region_sales_sum (db : DB) (hnd : (db.stores.map Store.id).Nodup) :
    sumSnd (region_sales db) + danglingStoreAmount db = totalAmount db := by
  unfold region_sales
  rw [sumSnd_groupSumDesc]
  unfold storeAmountPairs
  rw [join_sum_accounting db.sales db.stores Store.id Store.region Sale.store_id hnd]
  unfold danglingStoreAmount totalAmount
  exact sum_map_filter_add db.sales _ Sale.amount

lemma sqlSumAmount_ne_nil {rows : List Sale} (h : rows ≠ []) :
    sqlSumAmount rows = some ((rows.map Sale.amount).sum) := by
  cases rows with
  | nil => exact absurd rfl h
  | cons a l => rfl

lemma runAnalysisCalls_spec (nows : List String) :
    ∀ db : DB, (runAnalysisCalls db nows).analysis_results.length
        = db.analysis_results.length + nows.length
      ∧ ∀ r ∈ (runAnalysisCalls db nows).analysis_results,
          r ∈ db.analysis_results ∨ r.analysis_type = "total_revenue" := by
  induction nows with
  | nil =>
      intro db
      exact ⟨rfl, fun r hr => Or.inl hr⟩
  | cons t ts ih =>
      intro db
      simp only [runAnalysisCalls]
      rcases ih (run_sales_analysis db t).1 with ⟨hlen, hmem⟩
      constructor
      · rw [hlen]
        simp only [run_sales_analysis, List.length_append, List.length_cons]
        simp
        omega
      · intro r hr
        rcases hmem r hr with h1 | h1
        · simp only [run_sales_analysis] at h1
          rcases List.mem_append.mp h1 with h2 | h2
          · exact Or.inl h2
          · right
            rw [List.mem_singleton.mp h2]
        · exact Or.inr h1

/-- Claim C2 (empty-table boundary, code-bug evidence): over zero sales
rows SELECT SUM(amount) is NULL (`none`), not the number zero, the
aggregator records that NULL, and the dashboard headline metric does NOT
handle it: the Python float formatting of the None raises TypeError, so the
display path crashes instead of special-casing the absent value. -/
theorem c2_empty_table_behavior :
    sqlSumAmount ([] : List Sale) = none
    ∧ dashboard_total_revenue emptyDB = none
    ∧ dashboard_total_revenue emptyDB ≠ some 0
    ∧ dashboard_metric emptyDB
        = Except.error "TypeError: unsupported format string passed to NoneType"
    ∧ (run_sales_analysis emptyDB "t").2.total_revenue = none :=
  ⟨rfl, rfl, by decide, rfl, rfl⟩

/-- Claim C3 (aggregator side effect): every call appends exactly one
analysis_results row, tagged total_revenue, carrying the computed total,
the fixed label and the supplied timestamp, touching nothing else; N calls
append exactly N rows, all tagged total_revenue, whatever the computed
values. -/
theorem c3_analysis_side_effect :
    (∀ (db : DB) (now : String),
        (run_sales_analysis db now).1.analysis_results = db.analysis_results ++
          [{ analysis_type := "total_revenue", result_value := sqlSumAmount db.sales,
             result_details := "Overall revenue", created_at := now }]
        ∧ (run_sales_analysis db now).1.products = db.products
        ∧ (run_sales_analysis db now).1.stores = db.stores
        ∧ (run_sales_analysis db now).1.sales = db.sales
        ∧ (run_sales_analysis db now).1.schemas = db.schemas)
    ∧ (∀ (db : DB) (nows : List String),
        (runAnalysisCalls db nows).analysis_results.length
          = db.analysis_results.length + nows.length
        ∧ ∀ r ∈ (runAnalysisCalls db nows).analysis_results,
            r ∈ db.analysis_results ∨ r.analysis_type = "total_revenue") :=
  ⟨fun _ _ => ⟨rfl, rfl, rfl, rfl, rfl⟩, fun db nows => runAnalysisCalls_spec nows db⟩

/-- Witness for C3: two calls on the concrete store append two rows, and the
row written by the first call is tagged total_revenue. -/
theorem c3_analysis_side_effect_witness :
    (runAnalysisCalls exDB4 ["t1", "t2"]).analysis_results.length
        = exDB4.analysis_results.length + 2
    ∧ ({ analysis_type := "total_revenue", result_value := some 35,
         result_details := "Overall revenue", created_at := "t1" } : AnalysisResult)
        ∈ (runAnalysisCalls exDB4 ["t1", "t2"]).analysis_results
    ∧ (({ analysis_type := "total_revenue", result_value := some 35,
          result_details := "Overall revenue", created_at := "t1" } : AnalysisResult)
          ∈ exDB4.analysis_results
        ∨ ({ analysis_type := "total_revenue", result_value := some 35,
             result_details := "Overall revenue", created_at := "t1" } : AnalysisResult).analysis_type
          = "total_revenue") :=
  ⟨(c3_analysis_side_effect.2 exDB4 ["t1", "t2"]).1, by decide,
   (c3_analysis_side_effect.2 exDB4 ["t1", "t2"]).2 _ (by decide)⟩

/-- Claim C4 (aggregator correctness): on a populated store total_revenue
is the sum of amount over all sales rows; product_sales and region_sales
each group the joined revenue by their key, sorted descending by the
grouped sum, with one row per key occurring in the join; the concrete
three-sale store yields 35, then B:20 before A:15, then North:30 before
South:5. -/
theorem c4_aggregator_correctness :
    (∀ db : DB, db.sales ≠ [] → sqlSumAmount db.sales = some (totalAmount db))
    ∧ (∀ db : DB, (product_sales db).Pairwise (fun a b => b.2 ≤ a.2)
        ∧ (∀ kv ∈ product_sales db, kv.2 = sumForKey (productAmountPairs db) kv.1)
        ∧ (∀ k : String, (∃ v, (k, v) ∈ product_sales db)
            ↔ k ∈ (productAmountPairs db).map Prod.fst))
    ∧ (∀ db : DB, (region_sales db).Pairwise (fun a b => b.2 ≤ a.2)
        ∧ (∀ kv ∈ region_sales db, kv.2 = sumForKey (storeAmountPairs db) kv.1)
        ∧ (∀ k : String, (∃ v, (k, v) ∈ region_sales db)
            ↔ k ∈ (storeAmountPairs db).map Prod.fst))
    ∧ ((run_sales_analysis exDB4 "t").2.total_revenue = some 35
        ∧ (run_sales_analysis exDB4 "t").2.product_sales = [("B", 20), ("A", 15)]
        ∧ (run_sales_analysis exDB4 "t").2.region_sales = [("North", 30), ("South", 5)]) := by
  refine ⟨fun db h => sqlSumAmount_ne_nil h, ?_, ?_, by decide, by decide, by decide⟩
  · intro db
    refine ⟨pairwise_groupSumDesc _, fun kv h => (mem_groupSumDesc.mp h).2, fun k => ?_⟩
    constructor
    · rintro ⟨v, hv⟩
      exact List.mem_dedup.mp (mem_groupSumDesc.mp hv).1
    · intro hk
      exact ⟨sumForKey (productAmountPairs db) k,
        mem_groupSumDesc.mpr ⟨List.mem_dedup.mpr hk, rfl⟩⟩
  · intro db
    refine ⟨pairwise_groupSumDesc _, fun kv h => (mem_groupSumDesc.mp h).2, fun k => ?_⟩
    constructor
    · rintro ⟨v, hv⟩
      exact List.mem_dedup.mp (mem_groupSumDesc.mp hv).1
    · intro hk
      exact ⟨sumForKey (storeAmountPairs db) k,
        mem_groupSumDesc.mpr ⟨List.mem_dedup.mpr hk, rfl⟩⟩

/-- Witness for C4: the populated-store law and the group-value laws
applied to the concrete store. -/
theorem c4_aggregator_correctness_witness :
    (exDB4.sales ≠ [] ∧ sqlSumAmount exDB4.sales = some (totalAmount exDB4))
    ∧ ((("B", (20 : Int)) : String × Int) ∈ product_sales exDB4
        ∧ ((("B", (20 : Int)) : String × Int)).2
          = sumForKey (productAmountPairs exDB4) ((("B", (20 : Int)) : String × Int)).1)
    ∧ ((("North", (30 : Int)) : String × Int) ∈ region_sales exDB4
        ∧ ((("North", (30 : Int)) : String × Int)).2
          = sumForKey (storeAmountPairs exDB4) ((("North", (30 : Int)) : String × Int)).1)
    ∧ (∃ v, (("B", v) : String × Int) ∈ product_sales exDB4) := by
  refine ⟨⟨by decide, c4_aggregator_correctness.1 exDB4 (by decide)⟩,
    ⟨by decide, (c4_aggregator_correctness.2.1 exDB4).2.1 _ (by decide)⟩,
    ⟨by decide, (c4_aggregator_correctness.2.2.1 exDB4).2.1 _ (by decide)⟩,
    ((c4_aggregator_correctness.2.1 exDB4).2.2 "B").mpr (by decide)⟩

/-- Counterexample to C10 as stated: a store whose only sale dangles (its
product_id and store_id match no product or store row) but has amount 0;
the sale is excluded from both joins, yet the product_sales total equals
total_revenue, so "strictly less" fails. -/
theorem c10_join_exclusion_counterexample :
    exDB10.sales.any (fun s => !(exDB10.products.any (fun p => p.id == s.product_id))) = true
    ∧ exDB10.sales.any (fun s => !(exDB10.stores.any (fun st => st.id == s.store_id))) = true
    ∧ sqlSumAmount exDB10.sales = some 0
    ∧ product_sales exDB10 = []
    ∧ region_sales exDB10 = []
    ∧ ¬ sumSnd (product_sales exDB10) < totalAmount exDB10
    ∧ ¬ sumSnd (region_sales exDB10) < totalAmount exDB10 := by decide

/-- Claim C10 as amended: with unique product and store ids, the
product_sales rows sum to total_revenue minus exactly the amounts of the
sales whose product_id matches no product (and likewise region_sales for
dangling store_id); the deficit is a strict shortfall exactly when those
dangling amounts sum to something positive. -/
theorem c10_join_exclusion_amended (db : DB)
    (hp : (db.products.map Product.id).Nodup) (hs : (db.stores.map Store.id).Nodup) :
    sumSnd (product_sales db) + danglingProductAmount db = totalAmount db
    ∧ sumSnd (region_sales db) + danglingStoreAmount db = totalAmount db
    ∧ (0 < danglingProductAmount db → sumSnd (product_sales db) < totalAmount db)
    ∧ (0 < danglingStoreAmount db → sumSnd (region_sales db) < totalAmount db) := by
  have h1 := product_sales_sum db hp
  have h2 := region_sales_sum db hs
  exact ⟨h1, h2, fun h => by omega, fun h => by omega⟩

/-- Witness for the amended C10: the store with a positive-amount dangling
sale really shows a strict shortfall on both groupings. -/
theorem c10_join_exclusion_amended_witness :
    ((exDB10b.products.map Product.id).Nodup
      ∧ (exDB10b.stores.map Store.id).Nodup
      ∧ 0 < danglingProductAmount exDB10b
      ∧ 0 < danglingStoreAmount exDB10b)
    ∧ sumSnd (product_sales exDB10b) < totalAmount exDB10b
    ∧ sumSnd (region_sales exDB10b) < totalAmount exDB10b :=
  ⟨⟨by decide, by decide, by decide, by decide⟩,
   (c10_join_exclusion_amended exDB10b (by decide) (by decide)).2.2.1 (by decide),
   (c10_join_exclusion_amended exDB10b (by decide) (by decide)).2.2.2 (by decide)⟩

/-- Claim C8 (forecaster output shape and failure reporting): with a daily
revenue series of at least 30 points the forecast step returns exactly 7
point forecasts; with fewer points than the ARIMA(5,1,0) order requires it
reports an error instead of a malformed result. -/
theorem c8_forecaster_shape :
    (∀ db : DB, 30 ≤ (dailyRevenue db).length →
        ∃ vs, run_trend_forecast db = Except.ok vs ∧ vs.length = 7)
    ∧ (∀ db : DB, (dailyRevenue db).length < arimaMinObservations →
        ∃ e, run_trend_forecast db = Except.error e) := by
  constructor
  · intro db h
    have hc : ¬ ((dailyRevenue db).map Prod.snd).length < arimaMinObservations := by
      rw [List.length_map]
      unfold arimaMinObservations
      omega
    refine ⟨List.replicate 7 0, ?_, by decide⟩
    unfold run_trend_forecast arimaForecast
    rw [if_neg hc]
  · intro db h
    have hc : ((dailyRevenue db).map Prod.snd).length < arimaMinObservations := by
      rw [List.length_map]
      exact h
    refine ⟨"insufficient observations for ARIMA(5,1,0) fit", ?_⟩
    unfold run_trend_forecast arimaForecast
    rw [if_pos hc]

/-- Witness for C8: thirty sales on thirty distinct dates give a 7-value
forecast; the empty store reports a fit error. -/
theorem c8_forecaster_shape_witness :
    (30 ≤ (dailyRevenue db30).length
      ∧ ∃ vs, run_trend_forecast db30 = Except.ok vs ∧ vs.length = 7)
    ∧ ((dailyRevenue emptyDB).length < arimaMinObservations
      ∧ ∃ e, run_trend_forecast emptyDB = Except.error e) :=
  ⟨⟨by decide, c8_forecaster_shape.1 db30 (by decide)⟩,
   ⟨by decide, c8_forecaster_shape.2 emptyDB (by decide)⟩⟩
